import Mathlib

/-! Shallow embedding of the Office-PowerPoint-MCP-Server path-resolution,
validation, and request-handler layer (Python sources under src/).
Paths are modelled POSIX-style (separator characters are forward slashes),
matching the os.path (posixpath) functions the server calls. -/

namespace PptMcp

/-- Python values as they appear in tool arguments and responses (JSON-like),
including the list/tuple distinction that `isinstance(x, list)` observes. -/
inductive Val where
  | vNone : Val
  | vBool : Bool → Val
  | vInt : Int → Val
  | vRat : ℚ → Val
  | vStr : String → Val
  | vList : List Val → Val
  | vTuple : List Val → Val
  | vDict : List (String × Val) → Val

/-- A Python dict with string keys, as returned by every tool handler. -/
abbrev Dict := List (String × Val)

/-- Whether a response dict carries the given key. -/
def hasKey (d : Dict) (k : String) : Bool :=
  d.any (fun kv => kv.1 == k)

/-- Characters removed by Python str.strip() (ASCII whitespace). -/
def isPySpace (c : Char) : Bool :=
  c = ' ' || c = '\t' || c = '\n' || c = '\r' || c = '\x0b' || c = '\x0c'

/-- Python str.strip() on a character list. -/
def stripL (cs : List Char) : List Char :=
  ((cs.dropWhile isPySpace).reverse.dropWhile isPySpace).reverse

/-- posixpath.isabs: the path begins with a slash. -/
def isAbsL (p : List Char) : Bool := p.head? == some '/'

/-- Number of leading slashes posixpath.normpath preserves: one normally,
two when the path starts with exactly two slashes. -/
def initSlashes (p : List Char) : Nat :=
  if isAbsL p = true then
    (match p with
     | '/' :: '/' :: '/' :: _ => 1
     | '/' :: '/' :: _ => 2
     | _ => 1)
  else 0

/-- Python str.split on a one-character separator: an empty input yields one
empty component, and separators delimit (possibly empty) fields. -/
def splitSepL (sep : Char) : List Char → List (List Char)
  | [] => [[]]
  | c :: rest =>
    match splitSepL sep rest with
    | [] => [[]]
    | g :: gs => if c = sep then [] :: g :: gs else (c :: g) :: gs

/-- String wrapper for Python str.split on a one-character separator. -/
def pySplit (sep : Char) (s : String) : List String :=
  (splitSepL sep s.toList).map String.mk

/-- posixpath.normpath component filter: one foldl step of the CPython loop. -/
def normStep (initialSlashes : Nat) (acc : List (List Char)) (comp : List Char) :
    List (List Char) :=
  if comp = [] ∨ comp = ['.'] then acc
  else if comp ≠ ['.', '.'] ∨ (initialSlashes = 0 ∧ acc = []) ∨
      acc.getLast? = some ['.', '.'] then
    acc ++ [comp]
  else
    acc.dropLast

/-- posixpath.normpath on a character list, following the CPython algorithm. -/
def normpathL (p : List Char) : List Char :=
  if p = [] then ['.'] else
  let newComps := (splitSepL '/' p).foldl (normStep (initSlashes p)) []
  let res := List.replicate (initSlashes p) '/' ++ List.intercalate ['/'] newComps
  if res = [] then ['.'] else res

/-- posixpath.basename: everything after the last slash. -/
def basenameL (p : List Char) : List Char :=
  ((p.reverse.takeWhile (fun c => c ≠ '/')).reverse)

/-- posixpath.dirname: everything up to the last slash, with trailing slashes
stripped unless the head is all slashes. -/
def dirnameL (p : List Char) : List Char :=
  let headRev := p.reverse.dropWhile (fun c => c ≠ '/')
  if headRev = [] then [] else
  let strippedRev := headRev.dropWhile (fun c => c = '/')
  if strippedRev = [] then headRev.reverse else strippedRev.reverse

/-- posixpath.join restricted to two components, as the server calls it. -/
def joinL (a b : List Char) : List Char :=
  if isAbsL b then b
  else if a = [] ∨ a.getLast? = some '/' then a ++ b
  else a ++ '/' :: b

/-- posixpath.abspath relative to an explicit current working directory. -/
def abspathL (cwd p : List Char) : List Char :=
  if isAbsL p then normpathL p else normpathL (joinL cwd p)

/-- String wrapper for Python str.strip(). -/
def pyStrip (s : String) : String := String.mk (stripL s.toList)

/-- String wrapper for posixpath.isabs. -/
def isabs (s : String) : Bool := isAbsL s.toList

/-- String wrapper for posixpath.basename. -/
def pyBasename (s : String) : String := String.mk (basenameL s.toList)

/-- String wrapper for posixpath.dirname. -/
def pyDirname (s : String) : String := String.mk (dirnameL s.toList)

/-- String wrapper for posixpath.normpath. -/
def pyNormpath (s : String) : String := String.mk (normpathL s.toList)

/-- String wrapper for posixpath.join on two components. -/
def pyJoin (a b : String) : String := String.mk (joinL a.toList b.toList)

/-- String wrapper for posixpath.abspath with an explicit cwd. -/
def pyAbspath (cwd p : String) : String := String.mk (abspathL cwd.toList p.toList)

/-- The chain of directories os.makedirs(p) brings into existence: p together
with its ancestors, computed by iterating dirname (fuelled by the length). -/
def mkdirChain : Nat → String → List String
  | 0, _ => []
  | fuel + 1, p =>
    if p = "" then [] else
    let d := pyDirname p
    if d = p ∨ d = "" then [p] else p :: mkdirChain fuel d

/-- Filesystem effect of os.makedirs(p, exist_ok=True) on a set of existing
directories, modelled as a list of absolute directory paths. -/
def pyMakedirs (fs : List String) (p : String) : List String :=
  mkdirChain (p.length + 1) p ++ fs

/-- Result of resolve_presentation_path: the returned path, the directory
passed to os.makedirs (if any), and the directory set after the call. -/
structure ResolveResult where
  path : String
  created : Option String
  fs : List String
deriving DecidableEq

/-- get_presentations_root from src/ppt_mcp_server.py: CLI flag if truthy,
else the PPT_PRESENTATIONS_ROOT environment variable, else ./presentations. -/
def get_presentations_root (cli envRoot : Option String) : String :=
  match cli with
  | some c => if c = "" then envRoot.getD "./presentations" else c
  | none => envRoot.getD "./presentations"

/-- resolve_presentation_path from src/ppt_mcp_server.py, with the process
cwd, the configured root, and the existing-directory set made explicit. -/
def resolve_presentation_path (cwd root : String) (fs : List String)
    (name_or_path : String) : ResolveResult :=
  let raw := pyStrip name_or_path
  if isabs raw = true ∨ pyDirname raw ≠ "" then
    let abs_path := pyAbspath cwd raw
    let base_name := pyBasename abs_path
    let looks_like_file :=
      base_name.toList.contains '.' && !(decide (base_name.toList.take 1 = ['.']))
    let dir_to_create := if looks_like_file then pyDirname abs_path else abs_path
    if dir_to_create ≠ "" then
      ⟨abs_path, some dir_to_create, pyMakedirs fs dir_to_create⟩
    else
      ⟨abs_path, none, fs⟩
  else
    let root_abs := pyAbspath cwd root
    ⟨pyJoin root_abs raw, some root_abs, pyMakedirs fs root_abs⟩

/-- os.path.expanduser on a leading tilde, over character lists. -/
def expanduserL (home p : List Char) : List Char :=
  match p with
  | ['~'] => home
  | '~' :: '/' :: rest => home ++ '/' :: rest
  | _ => p

/-- os.path.expanduser on a leading tilde, with the home directory made
explicit (home is assumed without a trailing slash); other inputs pass
through unchanged, as do tilde-user forms for unknown users. -/
def pyExpanduser (home p : String) : String :=
  String.mk (expanduserL home.toList p.toList)

/-- Fixed fallback template directories from get_template_search_directories. -/
def fallbackDirs : List String := [".", "./templates", "./assets", "./resources"]

/-- get_template_search_directories from src/ppt_mcp_server.py, with the
PPT_TEMPLATE_PATH variable, the platform, the home directory and the
exists-and-is-directory test made explicit. The Bool result records whether
the warning about missing PPT_TEMPLATE_PATH directories was printed. -/
def get_template_search_directories (envPath : Option String) (isWindows : Bool)
    (home : String) (isdir : String → Bool) : List String × Bool :=
  match envPath with
  | none => (fallbackDirs, false)
  | some tpl =>
    if tpl ≠ "" then
      let separator := if isWindows then ';' else ':'
      let env_dirs := ((pySplit separator tpl).map pyStrip).filter (fun p => p ≠ "")
      let valid_env_dirs := (env_dirs.map (pyExpanduser home)).filter isdir
      if valid_env_dirs ≠ [] then (valid_env_dirs ++ fallbackDirs, false)
      else (fallbackDirs, true)
    else (fallbackDirs, false)

/-- Python str.rstrip with the two path-separator characters, on lists. -/
def rstripSlashL (cs : List Char) : List Char :=
  (cs.reverse.dropWhile (fun c => c = '\\' || c = '/')).reverse

/-- Core of sanitize_presentation_name from src/tools/response_utils.py on a
non-empty string: strip, remove trailing separators, take the basename. -/
def sanitizeStr (s : String) : String :=
  let stripped := stripL s.toList
  if stripped = [] then String.mk stripped else
  let stripped2 := rstripSlashL stripped
  if stripped2 = [] then String.mk stripped2 else
  let basename := basenameL stripped2
  if basename = [] then String.mk stripped2 else String.mk basename

/-- sanitize_presentation_name from src/tools/response_utils.py: None and
empty inputs pass through unchanged. -/
def sanitize_presentation_name : Option String → Option String
  | none => none
  | some s => if s = "" then some s else some (sanitizeStr s)

/-- validate_parameters inner loop: the first failing constraint's message
for one parameter value, scanning the constraint list in order. -/
def checkConstraints {α : Type} (value : α) :
    List ((α → Bool) × String) → Option String
  | [] => none
  | (constraint_func, error_msg) :: rest =>
    if !(constraint_func value) then some error_msg
    else checkConstraints value rest

/-- validate_parameters from src/ppt_mcp_server.py: parameters are a mapping
(in insertion order) from name to a value and a constraint list; the result
is (True, None) or (False, message) for the first failure encountered. -/
def validate_parameters {α : Type} :
    List (String × α × List ((α → Bool) × String)) → Bool × Option String
  | [] => (true, none)
  | (param_name, value, constraints) :: rest =>
    match checkConstraints value constraints with
    | some error_msg =>
      (false, some ("Parameter '" ++ param_name ++ "': " ++ error_msg))
    | none => validate_parameters rest

/-- Python isinstance(c, int): true for int values and for bools, which are
a subclass of int. -/
def isInstInt : Val → Bool
  | .vInt _ => true
  | .vBool _ => true
  | _ => false

/-- Numeric value of a Python int-like value (bools count as 0 and 1). -/
def intVal : Val → Int
  | .vInt n => n
  | .vBool b => if b then 1 else 0
  | _ => 0

/-- is_valid_rgb from src/ppt_mcp_server.py: requires an actual list of
exactly three ints, each between 0 and 255. -/
def is_valid_rgb (color_list : Val) : Bool :=
  match color_list with
  | .vList cs =>
    decide (cs.length = 3) &&
      cs.all (fun c => isInstInt c && decide (0 ≤ intVal c ∧ intVal c ≤ 255))
  | _ => false

/-- A text run: its text and its hyperlink address (None when absent). -/
structure TextRun where
  text : String
  address : Option String
deriving DecidableEq

/-- A paragraph of a text frame. -/
structure Paragraph where
  runs : List TextRun
deriving DecidableEq

/-- A text frame: a list of paragraphs. -/
structure TextFrame where
  paragraphs : List Paragraph
deriving DecidableEq

/-- A shape: its text frame when it has one, and whether it holds a chart. -/
structure Shape where
  text_frame : Option TextFrame
  has_chart : Bool
deriving DecidableEq

/-- A slide: a list of shapes. -/
structure Slide where
  shapes : List Shape
deriving DecidableEq

/-- A presentation document: a list of slides. -/
structure Pres where
  slides : List Slide
deriving DecidableEq

/-- Outcomes of the fallible externals a handler touches: path resolution
(which re-raises filesystem errors), os.path.exists, and the delegate
library's open, create, and save calls. `Except.error` models a raised
exception carrying str(e). -/
structure Env where
  resolve : String → Except String String
  pathExists : String → Bool
  openPres : String → Except String Pres
  newPres : Except String Pres
  save : Pres → String → Except String String

/-- A save attempt: the document value written and the destination path. -/
abbrev SaveEv := Pres × String

/-- Python truthiness of an optional string (None and empty are falsy). -/
def truthyS : Option String → Bool
  | none => false
  | some s => s != ""

/-- Python str() of an optional string as used in f-strings (None prints
as the word None). -/
def pyShowOptStr : Option String → String
  | none => "None"
  | some s => s

/-- An optional string placed into a response dict (None becomes null). -/
def optStrVal : Option String → Val
  | none => .vNone
  | some s => .vStr s

/-- Python list index normalization: negative indices count from the end;
anything still out of range raises IndexError. -/
def pyIdx (len : Nat) (i : Int) : Except String Nat :=
  let j := if i < 0 then i + len else i
  if 0 ≤ j ∧ j < (len : Int) then .ok j.toNat
  else .error "list index out of range"

/-- Python list subscription xs[i] with IndexError on failure. -/
def pyGet {α : Type} (xs : List α) (i : Int) : Except String α :=
  match pyIdx xs.length i with
  | .error e => .error e
  | .ok j =>
    match xs.get? j with
    | some x => .ok x
    | none => .error "list index out of range"

/-- Replace the element at a valid position, leaving the list unchanged
otherwise; models in-place mutation of the pptx object tree. -/
def modifyAt {α : Type} (xs : List α) (j : Nat) (f : α → α) : List α :=
  match xs.get? j with
  | some x => xs.set j (f x)
  | none => xs

/-- Write a new text frame into the shape at the given slide and shape
positions. -/
def setShapeTF (pres : Pres) (si shi : Nat) (tf : TextFrame) : Pres :=
  ⟨modifyAt pres.slides si (fun sl =>
    ⟨modifyAt sl.shapes shi (fun sh => { sh with text_frame := some tf })⟩)⟩

/-- A bare error response dict. -/
def errResp (e : String) : Dict := [("error", Val.vStr e)]

/-- The catch-all boundary message of update_chart_data. -/
def chartErr (e : String) : Dict := errResp ("Failed to update chart data: " ++ e)

/-- The catch-all boundary message of manage_hyperlinks. -/
def hyperlinksErr (e : String) : Dict :=
  errResp ("Failed to manage hyperlinks: " ++ e)

/-- The catch-all boundary message of add_connector. -/
def connectorErr (e : String) : Dict := errResp ("Failed to add connector: " ++ e)

/-- The catch-all boundary message of manage_slide_transitions. -/
def transitionsErr (e : String) : Dict :=
  errResp ("Failed to manage slide transitions: " ++ e)

/-- Python dict lookup (first binding wins), as `d[k]` or `k in d` observe. -/
def getVal (d : Dict) (k : String) : Option Val :=
  match d.find? (fun kv => kv.1 == k) with
  | some kv => some kv.2
  | none => none

/-- create_presentation from src/tools/presentation_tools.py. The handler has
no try/except, so a failure in resolution, creation, or save is returned as
`Except.error`: an exception escaping the handler to the caller. -/
def create_presentation (presentation_file_name : String) (env : Env) :
    Except String Dict × List SaveEv :=
  match env.resolve presentation_file_name with
  | .error e => (.error e, [])
  | .ok path =>
    match env.newPres with
    | .error e => (.error e, [])
    | .ok pres =>
      match env.save pres path with
      | .error e => (.error e, [(pres, path)])
      | .ok saved_path =>
        (.ok [("message", .vStr ("Created new presentation at: " ++ saved_path)),
              ("file_path", .vStr saved_path),
              ("slide_count", .vInt pres.slides.length)], [(pres, path)])

/-- open_presentation from src/tools/presentation_tools.py: the resolver runs
outside the try block (its failure escapes); the open call is guarded. The
file-not-found error interpolates the full resolved path. -/
def open_presentation (presentation_file_name : String) (env : Env) :
    Except String Dict :=
  match env.resolve presentation_file_name with
  | .error e => .error e
  | .ok path =>
    if !(env.pathExists path) then
      .ok (errResp ("File not found: " ++ path))
    else
      match env.openPres path with
      | .error e => .ok (errResp ("Failed to open presentation: " ++ e))
      | .ok pres =>
        .ok [("message", .vStr ("Opened presentation: " ++ path)),
             ("file_path", .vStr path),
             ("slide_count", .vInt pres.slides.length)]

/-- The update_chart_data series loop succeeds when every series dict has
both a name and a values key (the first missing key aborts the handler). -/
def allSeriesOk (series_data : List Dict) : Bool :=
  series_data.all (fun s => (getVal s "name").isSome && (getVal s "values").isSome)

/-- update_chart_data from src/tools/chart_tools.py. Building the new chart
data and chart.replace_data are delegate work with no observable in this
model and are omitted; the response dict and save attempts are modelled. -/
def update_chart_data (slide_index shape_index : Int) (categories : List String)
    (series_data : List Dict) (presentation_file_name : Option String)
    (env : Env) : Dict × List SaveEv :=
  match presentation_file_name with
  | none => (errResp "presentation_file_name is required", [])
  | some nm =>
  if nm = "" then (errResp "presentation_file_name is required", [])
  else
  match env.resolve nm with
  | .error e => (chartErr e, [])
  | .ok path =>
  if !(env.pathExists path) then
    (errResp ("File not found: " ++
      pyShowOptStr (sanitize_presentation_name (some nm))), [])
  else
  match env.openPres path with
  | .error e => (chartErr e, [])
  | .ok pres =>
  if ¬ (0 ≤ slide_index ∧ slide_index < (pres.slides.length : Int)) then
    (errResp ("Slide index " ++ toString slide_index ++ " out of range"), [])
  else
  match pres.slides.get? slide_index.toNat with
  | none => (chartErr "list index out of range", [])
  | some slide =>
  if ¬ (0 ≤ shape_index ∧ shape_index < (slide.shapes.length : Int)) then
    (errResp ("Shape index " ++ toString shape_index ++ " out of range"), [])
  else
  match slide.shapes.get? shape_index.toNat with
  | none => (chartErr "list index out of range", [])
  | some shape =>
  if !(shape.has_chart) then
    (errResp "Shape is not a chart", [])
  else
  if !(allSeriesOk series_data) then
    (errResp "Each series must have 'name' and 'values' keys", [])
  else
  match env.save pres path with
  | .error e => (chartErr e, [(pres, path)])
  | .ok _ =>
    ([("message", .vStr ("Updated chart data on slide " ++ toString slide_index ++
        ", shape " ++ toString shape_index)),
      ("categories", .vList (categories.map .vStr)),
      ("series_count", .vInt series_data.length),
      ("series_names", .vList (series_data.map (fun s =>
        (getVal s "name").getD .vNone)))], [(pres, path)])

/-- The list-operation scan of manage_hyperlinks: every run with a truthy
hyperlink address, tagged with its shape, paragraph, and run positions. -/
def collectHyperlinks (slide : Slide) : List Val :=
  (slide.shapes.enum.map (fun si =>
    match si.2.text_frame with
    | none => []
    | some tf =>
      (tf.paragraphs.enum.map (fun pi =>
        (pi.2.runs.enum.map (fun ri =>
          match ri.2.address with
          | some a =>
            if a ≠ "" then
              [Val.vDict [("shape_index", .vInt si.1),
                          ("paragraph_index", .vInt pi.1),
                          ("run_index", .vInt ri.1),
                          ("text", .vStr ri.2.text),
                          ("url", .vStr a)]]
            else []
          | none => [])).flatten)).flatten)).flatten

/-- The add-operation block of manage_hyperlinks: appends a linked run to
the first paragraph of the shape's text frame and saves. -/
def hyperlinkAdd (env : Env) (path : String) (pres : Pres) (slide_index : Int)
    (shi : Int) (tf : TextFrame) (text url : Option String) :
    Dict × List SaveEv :=
  if !(truthyS text) || !(truthyS url) then
    (errResp "Both 'text' and 'url' are required for adding hyperlinks", [])
  else
    match pyGet tf.paragraphs 0 with
    | .error e => (hyperlinksErr e, [])
    | .ok _ =>
      let newRun : TextRun := ⟨pyShowOptStr text, some (pyShowOptStr url)⟩
      let tf2 : TextFrame := ⟨modifyAt tf.paragraphs 0
        (fun p => ⟨p.runs ++ [newRun]⟩)⟩
      let pres2 := setShapeTF pres slide_index.toNat shi.toNat tf2
      match env.save pres2 path with
      | .error e => (hyperlinksErr e, [(pres2, path)])
      | .ok _ =>
        ([("message", .vStr ("Added hyperlink '" ++ pyShowOptStr text ++
            "' -> '" ++ pyShowOptStr url ++ "' to shape " ++ toString shi)),
          ("text", .vStr (pyShowOptStr text)),
          ("url", .vStr (pyShowOptStr url)),
          ("file_path", .vStr path)], [(pres2, path)])

/-- The update-operation block of manage_hyperlinks: rewrites the address of
the run at run_index (Python list-subscription semantics, so negative
indices count from the end) in the first paragraph and saves. -/
def hyperlinkUpdate (env : Env) (path : String) (pres : Pres)
    (slide_index : Int) (shi : Int) (tf : TextFrame) (url : Option String)
    (run_index : Int) : Dict × List SaveEv :=
  if !(truthyS url) then (errResp "URL is required for updating hyperlinks", [])
  else
    match pyGet tf.paragraphs 0 with
    | .error e => (hyperlinksErr e, [])
    | .ok para0 =>
    if run_index < (para0.runs.length : Int) then
      match pyIdx para0.runs.length run_index with
      | .error e => (hyperlinksErr e, [])
      | .ok j =>
        match para0.runs.get? j with
        | none => (hyperlinksErr "list index out of range", [])
        | some run =>
          let old_url := run.address
          let tf2 : TextFrame := ⟨modifyAt tf.paragraphs 0 (fun p =>
            ⟨modifyAt p.runs j (fun r =>
              { r with address := some (pyShowOptStr url) })⟩)⟩
          let pres2 := setShapeTF pres slide_index.toNat shi.toNat tf2
          match env.save pres2 path with
          | .error e => (hyperlinksErr e, [(pres2, path)])
          | .ok _ =>
            ([("message", .vStr ("Updated hyperlink from '" ++
                pyShowOptStr old_url ++ "' to '" ++ pyShowOptStr url ++ "'")),
              ("old_url", optStrVal old_url),
              ("new_url", .vStr (pyShowOptStr url)),
              ("text", .vStr run.text),
              ("file_path", .vStr path)], [(pres2, path)])
    else (errResp ("Run index " ++ toString run_index ++ " out of range"), [])

/-- The remove-operation block of manage_hyperlinks: clears the address of
the run at run_index (Python list-subscription semantics) in the first
paragraph and saves. -/
def hyperlinkRemove (env : Env) (path : String) (pres : Pres)
    (slide_index : Int) (shi : Int) (tf : TextFrame) (run_index : Int) :
    Dict × List SaveEv :=
  match pyGet tf.paragraphs 0 with
  | .error e => (hyperlinksErr e, [])
  | .ok para0 =>
  if run_index < (para0.runs.length : Int) then
    match pyIdx para0.runs.length run_index with
    | .error e => (hyperlinksErr e, [])
    | .ok j =>
      match para0.runs.get? j with
      | none => (hyperlinksErr "list index out of range", [])
      | some run =>
        let old_url := run.address
        let tf2 : TextFrame := ⟨modifyAt tf.paragraphs 0 (fun p =>
          ⟨modifyAt p.runs j (fun r => { r with address := none })⟩)⟩
        let pres2 := setShapeTF pres slide_index.toNat shi.toNat tf2
        match env.save pres2 path with
        | .error e => (hyperlinksErr e, [(pres2, path)])
        | .ok _ =>
          ([("message", .vStr ("Removed hyperlink '" ++
              pyShowOptStr old_url ++ "' from text '" ++ run.text ++ "'")),
            ("removed_url", optStrVal old_url),
            ("text", .vStr run.text),
            ("file_path", .vStr path)], [(pres2, path)])
  else (errResp ("Run index " ++ toString run_index ++ " out of range"), [])

/-- manage_hyperlinks from src/tools/hyperlink_tools.py, whole body inside
the catch-all boundary; the three mutating operation blocks of the Python
function body are split into the helpers above. -/
def manage_hyperlinks (operation : String) (slide_index : Int)
    (shape_index : Option Int) (text url : Option String) (run_index : Int)
    (presentation_file_name : Option String) (env : Env) : Dict × List SaveEv :=
  match presentation_file_name with
  | none => (errResp "presentation_file_name is required", [])
  | some nm =>
  if nm = "" then (errResp "presentation_file_name is required", [])
  else
  match env.resolve nm with
  | .error e => (hyperlinksErr e, [])
  | .ok path =>
  if !(env.pathExists path) then (errResp ("File not found: " ++ path), [])
  else
  match env.openPres path with
  | .error e => (hyperlinksErr e, [])
  | .ok pres =>
  if ¬ (0 ≤ slide_index ∧ slide_index < (pres.slides.length : Int)) then
    (errResp ("Slide index " ++ toString slide_index ++ " out of range"), [])
  else
  match pres.slides.get? slide_index.toNat with
  | none => (hyperlinksErr "list index out of range", [])
  | some slide =>
  if operation = "list" then
    ([("message", .vStr ("Found " ++ toString (collectHyperlinks slide).length ++
        " hyperlinks on slide " ++ toString slide_index)),
      ("hyperlinks", .vList (collectHyperlinks slide)),
      ("file_path", .vStr path)], [])
  else
  match shape_index with
  | none => (errResp "Shape index None out of range", [])
  | some shi =>
  if ¬ (0 ≤ shi ∧ shi < (slide.shapes.length : Int)) then
    (errResp ("Shape index " ++ toString shi ++ " out of range"), [])
  else
  match slide.shapes.get? shi.toNat with
  | none => (hyperlinksErr "list index out of range", [])
  | some shape =>
  match shape.text_frame with
  | none => (errResp "Shape does not contain text", [])
  | some tf =>
  if operation = "add" then
    hyperlinkAdd env path pres slide_index shi tf text url
  else if operation = "update" then
    hyperlinkUpdate env path pres slide_index shi tf url run_index
  else if operation = "remove" then
    hyperlinkRemove env path pres slide_index shi tf run_index
  else
    (errResp ("Unsupported operation: " ++ operation ++
      ". Use 'add', 'remove', 'list', or 'update'"), [])

/-- Python str.lower restricted to ASCII, as applied to connector types. -/
def pyLower (s : String) : String := String.mk (s.toList.map Char.toLower)

/-- add_connector from src/tools/connector_tools.py. Coordinates and widths
are floats in the source and are modelled as rationals (they are only passed
through). The connector insertion and line formatting are delegate
mutations; the inserted connector is modelled as a bare shape, and the line
formatting has no observable here. The name is_valid_rgb is neither defined
nor imported in the module, so evaluating the color branch raises NameError,
which the catch-all boundary converts to an error response. -/
def add_connector (slide_index : Int) (connector_type : String)
    (start_x start_y end_x end_y : ℚ) (line_width : ℚ)
    (color : Option (List Int)) (presentation_file_name : Option String)
    (env : Env) : Dict × List SaveEv :=
  match presentation_file_name with
  | none => (errResp "presentation_file_name is required", [])
  | some nm =>
  if nm = "" then (errResp "presentation_file_name is required", [])
  else
  match env.resolve nm with
  | .error e => (connectorErr e, [])
  | .ok path =>
  if !(env.pathExists path) then (errResp ("File not found: " ++ nm), [])
  else
  match env.openPres path with
  | .error e => (connectorErr e, [])
  | .ok pres =>
  if ¬ (0 ≤ slide_index ∧ slide_index < (pres.slides.length : Int)) then
    (errResp ("Slide index " ++ toString slide_index ++ " out of range"), [])
  else
  match pres.slides.get? slide_index.toNat with
  | none => (connectorErr "list index out of range", [])
  | some slide =>
  if ¬ (pyLower connector_type = "straight" ∨ pyLower connector_type = "elbow" ∨
      pyLower connector_type = "curved") then
    (errResp "Invalid connector type. Use: ['straight', 'elbow', 'curved']", [])
  else
    let slide2 : Slide := ⟨slide.shapes ++ [⟨none, false⟩]⟩
    let pres2 : Pres := ⟨modifyAt pres.slides slide_index.toNat (fun _ => slide2)⟩
    if (match color with | some l => !l.isEmpty | none => false) then
      (connectorErr "name 'is_valid_rgb' is not defined", [])
    else
      match env.save pres2 path with
      | .error e => (connectorErr e, [(pres2, path)])
      | .ok _ =>
        ([("message", .vStr ("Added " ++ connector_type ++
            " connector to slide " ++ toString slide_index)),
          ("connector_type", .vStr connector_type),
          ("start_point", .vList [.vRat start_x, .vRat start_y]),
          ("end_point", .vList [.vRat end_x, .vRat end_y]),
          ("shape_index", .vInt (slide2.shapes.length - 1))], [(pres2, path)])

/-- manage_slide_transitions from src/tools/transition_tools.py. The set and
remove operations are placeholders: they build a message and re-save the
opened document without modifying it. Duration is a float in the source,
modelled as a rational (only passed through). -/
def manage_slide_transitions (slide_index : Int) (operation : String)
    (transition_type : Option String) (duration : ℚ)
    (presentation_file_name : Option String) (env : Env) : Dict × List SaveEv :=
  match presentation_file_name with
  | none => (errResp "presentation_file_name is required", [])
  | some nm =>
  if nm = "" then (errResp "presentation_file_name is required", [])
  else
  match env.resolve nm with
  | .error e => (transitionsErr e, [])
  | .ok path =>
  if !(env.pathExists path) then (errResp ("File not found: " ++ nm), [])
  else
  match env.openPres path with
  | .error e => (transitionsErr e, [])
  | .ok pres =>
  if ¬ (0 ≤ slide_index ∧ slide_index < (pres.slides.length : Int)) then
    (errResp ("Slide index " ++ toString slide_index ++ " out of range"), [])
  else
  if operation = "get" then
    ([("message", .vStr ("Transition info for slide " ++ toString slide_index)),
      ("slide_index", .vInt slide_index),
      ("note", .vStr "Transition reading has limited support in python-pptx")], [])
  else if operation = "set" then
    match env.save pres path with
    | .error e => (transitionsErr e, [(pres, path)])
    | .ok _ =>
      ([("message", .vStr ("Transition setting requested for slide " ++
          toString slide_index)),
        ("slide_index", .vInt slide_index),
        ("transition_type", optStrVal transition_type),
        ("duration", .vRat duration),
        ("note", .vStr ("Transition setting has limited support in python-pptx" ++
          " - this is a placeholder for future enhancement"))], [(pres, path)])
  else if operation = "remove" then
    match env.save pres path with
    | .error e => (transitionsErr e, [(pres, path)])
    | .ok _ =>
      ([("message", .vStr ("Transition removal requested for slide " ++
          toString slide_index)),
        ("slide_index", .vInt slide_index),
        ("note", .vStr ("Transition removal has limited support in python-pptx" ++
          " - this is a placeholder for future enhancement"))], [(pres, path)])
  else
    (errResp ("Unsupported operation: " ++ operation ++
      ". Use 'set', 'remove', or 'get'"), [])

/-- Spec-worded acceptance predicate for the RGB claim: any 3-element
sequence (list or tuple) of integers each in [0, 255]. Written from the
claim's words, to be compared with is_valid_rgb from the source. -/
def rgbClaimAccepts (v : Val) : Bool :=
  match v with
  | .vList cs =>
    decide (cs.length = 3) &&
      cs.all (fun c => isInstInt c && decide (0 ≤ intVal c ∧ intVal c ≤ 255))
  | .vTuple cs =>
    decide (cs.length = 3) &&
      cs.all (fun c => isInstInt c && decide (0 ≤ intVal c ∧ intVal c ≤ 255))
  | _ => false

/-- Spec-worded helper for the validator claim: the message of the first
failing constraint in list order, if any. -/
def firstFailingMsg {α : Type} (v : α) :
    List ((α → Bool) × String) → Option String
  | [] => none
  | c :: rest => if c.1 v = true then firstFailingMsg v rest else some c.2

/-- Spec-worded helper for the validator claim: the first failing parameter
in mapping order with its failing constraint's message. -/
def firstFailure {α : Type} :
    List (String × α × List ((α → Bool) × String)) → Option (String × String)
  | [] => none
  | (n, v, cs) :: rest =>
    match firstFailingMsg v cs with
    | some msg => some (n, msg)
    | none => firstFailure rest

/-- Spec-worded predicate for the validator claim: every constraint of every
parameter holds on its value. -/
def allConstraintsPass {α : Type}
    (params : List (String × α × List ((α → Bool) × String))) : Prop :=
  ∀ p ∈ params, ∀ c ∈ p.2.2, c.1 p.2.1 = true

theorem checkConstraints_eq_firstFailingMsg {α : Type} (v : α)
    (cs : List ((α → Bool) × String)) :
    checkConstraints v cs = firstFailingMsg v cs := by
  induction cs with
  | nil => rfl
  | cons c rest ih =>
    obtain ⟨f, m⟩ := c
    simp only [checkConstraints, firstFailingMsg]
    cases h : f v with
    | true => simpa [h] using ih
    | false => simp [h]

theorem checkConstraints_eq_none_iff {α : Type} (v : α)
    (cs : List ((α → Bool) × String)) :
    checkConstraints v cs = none ↔ ∀ c ∈ cs, c.1 v = true := by
  induction cs with
  | nil => simp [checkConstraints]
  | cons c rest ih =>
    obtain ⟨f, m⟩ := c
    simp only [checkConstraints]
    cases h : f v with
    | true => simp [h, ih]
    | false => simp [h]

/-- C3: validate_parameters returns a success result (true, none) exactly
when every constraint of every parameter holds on its value; otherwise it
returns false together with a message naming the first failing parameter in
mapping order and carrying that constraint's message, stopping at the first
failure. -/
theorem validate_parameters_spec {α : Type}
    (params : List (String × α × List ((α → Bool) × String))) :
    (validate_parameters params = (true, none) ↔ allConstraintsPass params) ∧
    validate_parameters params =
      (match firstFailure params with
       | none => (true, none)
       | some (n, msg) => (false, some ("Parameter '" ++ n ++ "': " ++ msg))) := by
  induction params with
  | nil => simp [validate_parameters, firstFailure, allConstraintsPass]
  | cons p rest ih =>
    obtain ⟨n, v, cs⟩ := p
    simp only [validate_parameters, firstFailure,
      ← checkConstraints_eq_firstFailingMsg]
    cases h : checkConstraints v cs with
    | none =>
      have hall := (checkConstraints_eq_none_iff v cs).mp h
      constructor
      · rw [ih.1]
        constructor
        · intro hr q hq
          rcases List.mem_cons.mp hq with hq | hq
          · subst hq; exact hall
          · exact hr q hq
        · intro hall2 q hq
          exact hall2 q (List.mem_cons_of_mem _ hq)
      · exact ih.2
    | some msg =>
      constructor
      · constructor
        · intro hr; cases hr
        · intro hall2
          have := hall2 (n, v, cs) (by simp)
          have hnone := (checkConstraints_eq_none_iff v cs).mpr this
          rw [h] at hnone; cases hnone
      · rfl

/-- C8 counterexample: the tuple (255, 0, 0) is a 3-element sequence of
integers each in [0, 255], so the claim accepts it, but is_valid_rgb
rejects it because the source checks isinstance(color_list, list). -/
theorem rgb_tuple_counterexample :
    rgbClaimAccepts (.vTuple [.vInt 255, .vInt 0, .vInt 0]) = true ∧
    is_valid_rgb (.vTuple [.vInt 255, .vInt 0, .vInt 0]) = false := by
  constructor <;> rfl

/-- C8 amended: is_valid_rgb accepts exactly the 3-element Python lists of
integers (bools included, being a subclass of int) each in [0, 255]; tuples
and other non-list values are rejected, as are lists of other lengths, with
non-integer elements, or with out-of-range values. In particular
[255, 0, 0] passes while [256, 0, 0] and [1, 2] fail. -/
theorem is_valid_rgb_amended :
    (∀ v : Val, is_valid_rgb v = true ↔
      ∃ cs, v = .vList cs ∧ cs.length = 3 ∧
        ∀ c ∈ cs, isInstInt c = true ∧ 0 ≤ intVal c ∧ intVal c ≤ 255) ∧
    is_valid_rgb (.vList [.vInt 255, .vInt 0, .vInt 0]) = true ∧
    is_valid_rgb (.vList [.vInt 256, .vInt 0, .vInt 0]) = false ∧
    is_valid_rgb (.vList [.vInt 1, .vInt 2]) = false := by
  refine ⟨?_, rfl, rfl, rfl⟩
  intro v
  cases v with
  | vList cs =>
    simp [is_valid_rgb, List.all_eq_true, and_assoc]
  | vNone => simp [is_valid_rgb]
  | vBool b => simp [is_valid_rgb]
  | vInt n => simp [is_valid_rgb]
  | vRat q => simp [is_valid_rgb]
  | vStr s => simp [is_valid_rgb]
  | vTuple cs => simp [is_valid_rgb]
  | vDict d => simp [is_valid_rgb]

/-- C7 counterexample: with PPT_TEMPLATE_PATH set to the empty string the
variable is set and no entry is a valid directory, yet the function emits no
warning (the empty string is falsy, so the whole branch is skipped),
contradicting the claim's warning clause; the fallback list is returned. -/
theorem template_dirs_empty_env_counterexample :
    get_template_search_directories (some "") false "/home/u" (fun _ => false) =
      (fallbackDirs, false) := by
  rfl

/-- C7 amended: when the variable is unset, or set to the empty string, the
fixed fallback list is returned with no warning; when it is set to a
non-empty string, entries are split on the platform separator, trimmed,
empties dropped, user-home expanded, and only existing directories kept: if
any survive they are returned followed by the fallback list, otherwise a
warning is emitted and the fallback list alone is returned. -/
theorem template_search_directories_amended (isWindows : Bool) (home : String)
    (isdir : String → Bool) :
    get_template_search_directories none isWindows home isdir =
      (fallbackDirs, false) ∧
    get_template_search_directories (some "") isWindows home isdir =
      (fallbackDirs, false) ∧
    (∀ tpl : String, tpl ≠ "" →
      (((((pySplit (if isWindows then ';' else ':') tpl).map pyStrip).filter
          (fun p => p ≠ "")).map (pyExpanduser home)).filter isdir ≠ [] →
        get_template_search_directories (some tpl) isWindows home isdir =
          ((((((pySplit (if isWindows then ';' else ':') tpl).map pyStrip).filter
            (fun p => p ≠ "")).map (pyExpanduser home)).filter isdir) ++
              fallbackDirs, false)) ∧
      (((((pySplit (if isWindows then ';' else ':') tpl).map pyStrip).filter
          (fun p => p ≠ "")).map (pyExpanduser home)).filter isdir = [] →
        get_template_search_directories (some tpl) isWindows home isdir =
          (fallbackDirs, true))) := by
  refine ⟨rfl, rfl, ?_⟩
  intro tpl htpl
  constructor
  · intro hvalid
    unfold get_template_search_directories
    dsimp only
    rw [if_pos htpl, if_pos hvalid]
  · intro hvalid
    unfold get_template_search_directories
    dsimp only
    rw [if_pos htpl, if_neg (fun h => h hvalid)]

/-- C7 witness: a concrete PPT_TEMPLATE_PATH with one valid directory. -/
theorem template_search_directories_amended_witness :
    get_template_search_directories (some "/a") false "/home/u"
      (fun s => s == "/a") = (["/a"] ++ fallbackDirs, false) := by
  have h := ((template_search_directories_amended false "/home/u"
    (fun s => s == "/a")).2.2 "/a" (by decide)).1 (by decide)
  exact h.trans (by decide)

theorem stringMk_eq_empty_iff (cs : List Char) : String.mk cs = "" ↔ cs = [] := by
  constructor
  · intro h
    exact congrArg String.data h
  · intro h
    subst h
    rfl

theorem isAbsL_ne_nil {p : List Char} (h : isAbsL p = true) : p ≠ [] := by
  intro he
  subst he
  simp [isAbsL] at h

theorem isAbsL_cons {p : List Char} (h : isAbsL p = true) :
    ∃ t, p = '/' :: t := by
  rcases p with _ | ⟨c, t⟩
  · simp [isAbsL] at h
  · simp [isAbsL] at h
    exact ⟨t, by rw [h]⟩

theorem initSlashes_pos {p : List Char} (h : isAbsL p = true) :
    1 ≤ initSlashes p := by
  unfold initSlashes
  rw [if_pos h]
  split <;> omega

theorem isAbsL_replicate_append {k : Nat} (hk : 1 ≤ k) (l : List Char) :
    isAbsL (List.replicate k '/' ++ l) = true := by
  cases k with
  | zero => omega
  | succ n => simp [List.replicate_succ, isAbsL]

theorem normpathL_ne_nil (p : List Char) : normpathL p ≠ [] := by
  unfold normpathL
  split
  · simp
  · dsimp only
    split
    · simp
    · assumption

theorem isAbsL_normpathL {p : List Char} (h : isAbsL p = true) :
    isAbsL (normpathL p) = true := by
  unfold normpathL
  rw [if_neg (isAbsL_ne_nil h)]
  dsimp only
  have habs := isAbsL_replicate_append (initSlashes_pos h)
    (List.intercalate ['/'] ((splitSepL '/' p).foldl (normStep (initSlashes p)) []))
  rw [if_neg (fun he => by rw [he] at habs; simp [isAbsL] at habs)]
  exact habs

theorem isAbsL_joinL {a : List Char} (b : List Char) (ha : isAbsL a = true)
    (hb : isAbsL b = false) : isAbsL (joinL a b) = true := by
  obtain ⟨t, rfl⟩ := isAbsL_cons ha
  unfold joinL
  rw [if_neg (by simp [hb])]
  split <;> simp [isAbsL]

theorem isAbsL_abspathL (cwd p : List Char) (h : isAbsL cwd = true) :
    isAbsL (abspathL cwd p) = true := by
  unfold abspathL
  split
  · exact isAbsL_normpathL (by assumption)
  · exact isAbsL_normpathL (isAbsL_joinL p h
      (by simp_all))

theorem dirnameL_ne_nil {p : List Char} (h : isAbsL p = true) :
    dirnameL p ≠ [] := by
  have hmem : '/' ∈ p.reverse := by
    obtain ⟨t, rfl⟩ := isAbsL_cons h
    simp
  unfold dirnameL
  dsimp only
  split
  · next he =>
    rw [List.dropWhile_eq_nil_iff] at he
    have := he '/' hmem
    simp at this
  · next hne =>
    split
    · next hs =>
      simp only [ne_eq, List.reverse_eq_nil_iff]
      exact hne
    · next hs =>
      simp only [ne_eq, List.reverse_eq_nil_iff]
      exact hs

theorem pyAbspath_isabs (cwd p : String) (h : isabs cwd = true) :
    isabs (pyAbspath cwd p) = true :=
  isAbsL_abspathL cwd.toList p.toList h

theorem pyAbspath_ne_empty (cwd p : String) : pyAbspath cwd p ≠ "" := by
  unfold pyAbspath abspathL
  intro he
  rw [stringMk_eq_empty_iff] at he
  revert he
  split <;> exact fun he => normpathL_ne_nil _ he

theorem pyDirname_ne_empty {p : String} (h : isabs p = true) :
    pyDirname p ≠ "" := by
  intro he
  rw [pyDirname, stringMk_eq_empty_iff] at he
  exact dirnameL_ne_nil h he

theorem mem_pyMakedirs_self (fs : List String) (p : String) (hp : p ≠ "") :
    p ∈ pyMakedirs fs p := by
  unfold pyMakedirs mkdirChain
  rw [if_neg hp]
  dsimp only
  split <;> simp

/-- Spec-worded predicate from the claim: the final path component contains
a period at a position other than 0. -/
def claimLooksLikeFile (base : String) : Bool :=
  (base.toList.drop 1).contains '.'

/-- C1 counterexample: for the identifier /tmp/.a.b the final component
.a.b contains a period away from position 0, so the claim requires the
parent directory /tmp to be the creation target; the code instead treats
any leading-dot name as a directory and creates /tmp/.a.b itself. -/
theorem resolve_dotname_counterexample :
    claimLooksLikeFile
      (pyBasename (resolve_presentation_path "/" "./presentations" []
        "/tmp/.a.b").path) = true ∧
    (resolve_presentation_path "/" "./presentations" [] "/tmp/.a.b").created =
      some "/tmp/.a.b" ∧
    pyDirname "/tmp/.a.b" = "/tmp" ∧
    (resolve_presentation_path "/" "./presentations" [] "/tmp/.a.b").created ≠
      some (pyDirname (resolve_presentation_path "/" "./presentations" []
        "/tmp/.a.b").path) := by
  refine ⟨by decide, by decide, by decide, by decide⟩

/-- C1 amended: for every identifier that, after trimming surrounding
whitespace, is absolute or contains a directory separator, the resolver
returns its absolute form; if the final component contains a period and
does not itself begin with one, the parent directory of the path is created
recursively, otherwise (no period, or a leading-dot name) the full path
itself is created as a directory. The process cwd is absolute. -/
theorem resolve_dir_path_amended (cwd root : String) (fs : List String)
    (name : String) (hcwd : isabs cwd = true)
    (hdir : isabs (pyStrip name) = true ∨ pyDirname (pyStrip name) ≠ "") :
    (resolve_presentation_path cwd root fs name).path =
      pyAbspath cwd (pyStrip name) ∧
    (resolve_presentation_path cwd root fs name).created =
      some (if (pyBasename (pyAbspath cwd (pyStrip name))).toList.contains '.' &&
          !(decide ((pyBasename (pyAbspath cwd (pyStrip name))).toList.take 1 =
            ['.']))
        then pyDirname (pyAbspath cwd (pyStrip name))
        else pyAbspath cwd (pyStrip name)) ∧
    (resolve_presentation_path cwd root fs name).fs =
      pyMakedirs fs (if (pyBasename (pyAbspath cwd (pyStrip name))).toList.contains
          '.' && !(decide ((pyBasename (pyAbspath cwd (pyStrip name))).toList.take 1 =
            ['.']))
        then pyDirname (pyAbspath cwd (pyStrip name))
        else pyAbspath cwd (pyStrip name)) := by
  have htarget :
      (if (pyBasename (pyAbspath cwd (pyStrip name))).toList.contains '.' &&
          !(decide ((pyBasename (pyAbspath cwd (pyStrip name))).toList.take 1 =
            ['.']))
        then pyDirname (pyAbspath cwd (pyStrip name))
        else pyAbspath cwd (pyStrip name)) ≠ "" := by
    split
    · exact pyDirname_ne_empty (pyAbspath_isabs cwd (pyStrip name) hcwd)
    · exact pyAbspath_ne_empty cwd (pyStrip name)
  unfold resolve_presentation_path
  rw [if_pos hdir]
  dsimp only
  rw [if_pos htarget]
  exact ⟨rfl, rfl, rfl⟩

/-- C1 witness: a concrete absolute file-looking identifier (with
surrounding whitespace) whose parent chain is created. -/
theorem resolve_dir_path_amended_witness :
    (resolve_presentation_path "/home/user" "./presentations" []
      " /data/decks/deck.pptx ").path = "/data/decks/deck.pptx" ∧
    (resolve_presentation_path "/home/user" "./presentations" []
      " /data/decks/deck.pptx ").created = some "/data/decks" ∧
    (resolve_presentation_path "/home/user" "./presentations" []
      " /data/decks/deck.pptx ").fs = ["/data/decks", "/data", "/"] := by
  have h := resolve_dir_path_amended "/home/user" "./presentations" []
    " /data/decks/deck.pptx " (by decide) (Or.inl (by decide))
  exact ⟨h.1.trans (by decide), (h.2.1).trans (by decide),
    (h.2.2).trans (by decide)⟩

/-- C2: for every bare filename (after trimming: not absolute, no directory
separator), the resolver returns the join of the absolute form of the
configured presentations root with the trimmed name, and that absolute root
exists in the directory set after the call. -/
theorem resolve_bare_name_spec (cli envRoot : Option String) (cwd : String)
    (fs : List String) (name : String)
    (hbare : isabs (pyStrip name) = false ∧ pyDirname (pyStrip name) = "") :
    (resolve_presentation_path cwd (get_presentations_root cli envRoot) fs
      name).path =
      pyJoin (pyAbspath cwd (get_presentations_root cli envRoot))
        (pyStrip name) ∧
    (resolve_presentation_path cwd (get_presentations_root cli envRoot) fs
      name).created =
      some (pyAbspath cwd (get_presentations_root cli envRoot)) ∧
    pyAbspath cwd (get_presentations_root cli envRoot) ∈
      (resolve_presentation_path cwd (get_presentations_root cli envRoot) fs
        name).fs := by
  have hcond : ¬ (isabs (pyStrip name) = true ∨ pyDirname (pyStrip name) ≠ "") := by
    rintro (h | h)
    · rw [hbare.1] at h; cases h
    · exact h hbare.2
  unfold resolve_presentation_path
  rw [if_neg hcond]
  dsimp only
  exact ⟨rfl, rfl, mem_pyMakedirs_self _ _
    (pyAbspath_ne_empty cwd (get_presentations_root cli envRoot))⟩

/-- C2 witness: a bare filename under the default root with the environment
variable unset. -/
theorem resolve_bare_name_spec_witness :
    (resolve_presentation_path "/home/user"
      (get_presentations_root none none) [] "deck.pptx").path =
      "/home/user/presentations/deck.pptx" ∧
    "/home/user/presentations" ∈
      (resolve_presentation_path "/home/user"
        (get_presentations_root none none) [] "deck.pptx").fs := by
  have h := resolve_bare_name_spec none none "/home/user" [] "deck.pptx"
    (by constructor <;> decide)
  refine ⟨h.1.trans (by decide), ?_⟩
  have h3 := h.2.2
  have he : pyAbspath "/home/user" (get_presentations_root none none) =
      "/home/user/presentations" := by decide
  rw [he] at h3
  exact h3

/-- A sample one-slide presentation: one shape holding a chart and a text
frame with a single linked run. Used by the concrete witnesses below. -/
def samplePres : Pres :=
  ⟨[⟨[⟨some ⟨[⟨[⟨"hello", some "http://old"⟩]⟩]⟩, true⟩]⟩]⟩

/-- A sample environment where resolution and every delegate call succeed. -/
def sampleEnv : Env :=
  { resolve := fun _ => .ok "/root/pres/deck.pptx"
    pathExists := fun _ => true
    openPres := fun _ => .ok samplePres
    newPres := .ok ⟨[⟨[]⟩]⟩
    save := fun _ p => .ok p }

/-- An environment whose path resolution raises, as resolve_presentation_path
does when directory creation fails (it prints and re-raises). -/
def failingResolveEnv : Env :=
  { resolve := fun _ => .error "makedirs failed"
    pathExists := fun _ => false
    openPres := fun _ => .error "missing"
    newPres := .ok ⟨[]⟩
    save := fun _ _ => .error "io error" }

/-- C4 counterexample: create_presentation has no try/except boundary, so a
resolution failure escapes the handler as an exception instead of being
returned as an error-response mapping. -/
theorem create_presentation_exception_counterexample :
    (create_presentation "deck.pptx" failingResolveEnv).1 =
      .error "makedirs failed" := rfl

/-- C4 amended: handlers whose whole body sits inside a catch-all boundary,
such as manage_hyperlinks, always return a flat mapping carrying exactly one
of the message or error keys and never let an exception escape;
create_presentation, by contrast, runs resolution, creation, and saving
outside any boundary, so failures there escape as exceptions. -/
theorem hyperlinkAdd_message_xor_error (env : Env) (path : String)
    (pres : Pres) (slide_index shi : Int) (tf : TextFrame)
    (text url : Option String) :
    ((hasKey (hyperlinkAdd env path pres slide_index shi tf text url).1
        "message") !=
      (hasKey (hyperlinkAdd env path pres slide_index shi tf text url).1
        "error")) = true := by
  suffices h : ∀ r : Dict × List SaveEv,
      hyperlinkAdd env path pres slide_index shi tf text url = r →
      ((hasKey r.1 "message") != (hasKey r.1 "error")) = true from h _ rfl
  intro r hr
  unfold hyperlinkAdd at hr
  repeat' (first | split at hr | dsimp only at hr)
  all_goals subst hr
  all_goals rfl

theorem hyperlinkUpdate_message_xor_error (env : Env) (path : String)
    (pres : Pres) (slide_index shi : Int) (tf : TextFrame)
    (url : Option String) (run_index : Int) :
    ((hasKey (hyperlinkUpdate env path pres slide_index shi tf url
        run_index).1 "message") !=
      (hasKey (hyperlinkUpdate env path pres slide_index shi tf url
        run_index).1 "error")) = true := by
  suffices h : ∀ r : Dict × List SaveEv,
      hyperlinkUpdate env path pres slide_index shi tf url run_index = r →
      ((hasKey r.1 "message") != (hasKey r.1 "error")) = true from h _ rfl
  intro r hr
  unfold hyperlinkUpdate at hr
  repeat' (first | split at hr | dsimp only at hr)
  all_goals subst hr
  all_goals rfl

theorem hyperlinkRemove_message_xor_error (env : Env) (path : String)
    (pres : Pres) (slide_index shi : Int) (tf : TextFrame) (run_index : Int) :
    ((hasKey (hyperlinkRemove env path pres slide_index shi tf run_index).1
        "message") !=
      (hasKey (hyperlinkRemove env path pres slide_index shi tf run_index).1
        "error")) = true := by
  suffices h : ∀ r : Dict × List SaveEv,
      hyperlinkRemove env path pres slide_index shi tf run_index = r →
      ((hasKey r.1 "message") != (hasKey r.1 "error")) = true from h _ rfl
  intro r hr
  unfold hyperlinkRemove at hr
  repeat' (first | split at hr | dsimp only at hr)
  all_goals subst hr
  all_goals rfl

theorem manage_hyperlinks_message_xor_error (operation : String)
    (slide_index : Int) (shape_index : Option Int) (text url : Option String)
    (run_index : Int) (presentation_file_name : Option String) (env : Env) :
    ((hasKey (manage_hyperlinks operation slide_index shape_index text url
        run_index presentation_file_name env).1 "message") !=
      (hasKey (manage_hyperlinks operation slide_index shape_index text url
        run_index presentation_file_name env).1 "error")) = true := by
  suffices h : ∀ r : Dict × List SaveEv,
      manage_hyperlinks operation slide_index shape_index text url run_index
        presentation_file_name env = r →
      ((hasKey r.1 "message") != (hasKey r.1 "error")) = true from h _ rfl
  intro r hr
  unfold manage_hyperlinks at hr
  repeat' split at hr
  all_goals subst hr
  all_goals first
    | rfl
    | apply hyperlinkAdd_message_xor_error
    | apply hyperlinkUpdate_message_xor_error
    | apply hyperlinkRemove_message_xor_error

/-- C5 counterexample: a run index of -1 lies outside the bounds [0, count)
of the run collection, yet the update operation succeeds through Python
negative indexing: a message response is returned and the file is saved. -/
theorem negative_run_index_counterexample :
    (¬ (0 ≤ (-1 : Int))) ∧
    hasKey (manage_hyperlinks "update" 0 (some 0) none (some "http://new") (-1)
      (some "deck.pptx") sampleEnv).1 "error" = false ∧
    hasKey (manage_hyperlinks "update" 0 (some 0) none (some "http://new") (-1)
      (some "deck.pptx") sampleEnv).1 "message" = true ∧
    (manage_hyperlinks "update" 0 (some 0) none (some "http://new") (-1)
      (some "deck.pptx") sampleEnv).2 ≠ [] := by
  refine ⟨by decide, rfl, rfl, by decide⟩

/-- C5 amended: when a supplied slide or shape index falls outside the valid
bounds of its collection, or a run index is at least the run count, the
operation returns an error response naming the offending index (without
repeating the bound) and the presentation file is not saved; negative run
indices within reach of Python negative indexing are instead accepted. -/
theorem index_out_of_range_error_amended (env : Env) (nm path : String)
    (pres : Pres) (hnm : nm ≠ "") (hres : env.resolve nm = .ok path)
    (hex : env.pathExists path = true) (hop : env.openPres path = .ok pres) :
    (∀ (operation : String) (slide_index : Int) (shape_index : Option Int)
        (text url : Option String) (run_index : Int),
      ¬ (0 ≤ slide_index ∧ slide_index < (pres.slides.length : Int)) →
      manage_hyperlinks operation slide_index shape_index text url run_index
        (some nm) env =
        (errResp ("Slide index " ++ toString slide_index ++ " out of range"),
          [])) ∧
    (∀ (slide_index shi : Int) (text url : Option String) (run_index : Int)
        (slide : Slide),
      (0 ≤ slide_index ∧ slide_index < (pres.slides.length : Int)) →
      pres.slides[slide_index.toNat]? = some slide →
      ¬ (0 ≤ shi ∧ shi < (slide.shapes.length : Int)) →
      manage_hyperlinks "update" slide_index (some shi) text url run_index
        (some nm) env =
        (errResp ("Shape index " ++ toString shi ++ " out of range"), [])) ∧
    (∀ (slide_index shi : Int) (text url : Option String) (run_index : Int)
        (slide : Slide) (shape : Shape) (tf : TextFrame) (para0 : Paragraph),
      (0 ≤ slide_index ∧ slide_index < (pres.slides.length : Int)) →
      pres.slides[slide_index.toNat]? = some slide →
      (0 ≤ shi ∧ shi < (slide.shapes.length : Int)) →
      slide.shapes[shi.toNat]? = some shape →
      shape.text_frame = some tf →
      truthyS url = true →
      pyGet tf.paragraphs 0 = .ok para0 →
      (para0.runs.length : Int) ≤ run_index →
      manage_hyperlinks "update" slide_index (some shi) text url run_index
        (some nm) env =
        (errResp ("Run index " ++ toString run_index ++ " out of range"), [])) ∧
    (∀ (slide_index shape_index : Int) (categories : List String)
        (series_data : List Dict),
      ¬ (0 ≤ slide_index ∧ slide_index < (pres.slides.length : Int)) →
      update_chart_data slide_index shape_index categories series_data
        (some nm) env =
        (errResp ("Slide index " ++ toString slide_index ++ " out of range"),
          [])) ∧
    (∀ (slide_index shape_index : Int) (categories : List String)
        (series_data : List Dict) (slide : Slide),
      (0 ≤ slide_index ∧ slide_index < (pres.slides.length : Int)) →
      pres.slides[slide_index.toNat]? = some slide →
      ¬ (0 ≤ shape_index ∧ shape_index < (slide.shapes.length : Int)) →
      update_chart_data slide_index shape_index categories series_data
        (some nm) env =
        (errResp ("Shape index " ++ toString shape_index ++ " out of range"),
          [])) ∧
    (∀ (slide_index : Int) (operation : String)
        (transition_type : Option String) (duration : ℚ),
      ¬ (0 ≤ slide_index ∧ slide_index < (pres.slides.length : Int)) →
      manage_slide_transitions slide_index operation transition_type duration
        (some nm) env =
        (errResp ("Slide index " ++ toString slide_index ++ " out of range"),
          [])) := by
  refine ⟨?_, ?_, ?_, ?_, ?_, ?_⟩
  · intro operation slide_index shape_index text url run_index hsl
    simp [manage_hyperlinks, hnm, hres, hex, hop, hsl]
  · intro slide_index shi text url run_index slide hsl hslide hsh
    simp [manage_hyperlinks, hnm, hres, hex, hop, hsl, hslide, hsh]
  · intro slide_index shi text url run_index slide shape tf para0 hsl hslide
      hsh hshape htf hurl hpg hrun
    simp [manage_hyperlinks, hyperlinkUpdate, hnm, hres, hex, hop, hsl, hslide,
      hsh, hshape, htf, hurl, hpg, not_lt.mpr hrun]
  · intro slide_index shape_index categories series_data hsl
    simp [update_chart_data, hnm, hres, hex, hop, hsl]
  · intro slide_index shape_index categories series_data slide hsl hslide hsh
    simp [update_chart_data, hnm, hres, hex, hop, hsl, hslide, hsh]
  · intro slide_index operation transition_type duration hsl
    simp [manage_slide_transitions, hnm, hres, hex, hop, hsl]

/-- C5 witness: a concrete out-of-bounds slide index on the sample document
yields the error naming the index and an empty save log. -/
theorem index_out_of_range_error_amended_witness :
    manage_hyperlinks "update" 5 (some 0) none (some "http://x") 0
      (some "deck.pptx") sampleEnv =
      (errResp "Slide index 5 out of range", []) := by
  have h := (index_out_of_range_error_amended sampleEnv "deck.pptx"
    "/root/pres/deck.pptx" samplePres (by decide) rfl rfl rfl).1
  exact h "update" 5 (some 0) none (some "http://x") 0 (by decide)

theorem not_slash_mem_basenameL (p : List Char) : '/' ∉ basenameL p := by
  intro hm
  unfold basenameL at hm
  rw [List.mem_reverse] at hm
  have := List.mem_takeWhile_imp hm
  simp at this

theorem head_dropWhile_not {α : Type} (p : α → Bool) (l : List α) (c : α)
    (t : List α) (h : l.dropWhile p = c :: t) : ¬ p c = true := by
  induction l with
  | nil => simp [List.dropWhile] at h
  | cons a l ih =>
    rw [List.dropWhile_cons] at h
    by_cases hp : p a = true
    · rw [if_pos hp] at h
      exact ih h
    · rw [if_neg hp] at h
      injection h with h1 h2
      subst h1
      exact hp

theorem basenameL_rstripSlashL_ne_nil (cs : List Char)
    (h : rstripSlashL cs ≠ []) : basenameL (rstripSlashL cs) ≠ [] := by
  have hrev : (rstripSlashL cs).reverse =
      cs.reverse.dropWhile (fun c => c = '\\' || c = '/') := by
    unfold rstripSlashL
    rw [List.reverse_reverse]
  rcases hR : cs.reverse.dropWhile (fun c => c = '\\' || c = '/') with _ | ⟨c, t⟩
  · exfalso
    apply h
    unfold rstripSlashL
    rw [hR]
    rfl
  · have hc := head_dropWhile_not _ _ _ _ hR
    have hcslash : ¬ (c = '/') := fun hcc => hc (by simp [hcc])
    unfold basenameL
    rw [hrev, hR, List.takeWhile_cons_of_pos (by simpa using hcslash)]
    simp

/-- Core no-leak property of the sanitizer: its output never contains a
path separator. -/
theorem sanitizeStr_noSlash (s : String) : '/' ∉ (sanitizeStr s).toList := by
  unfold sanitizeStr
  dsimp only
  split
  · next h =>
    show '/' ∉ stripL s.toList
    rw [h]
    simp
  · split
    · next h =>
      show '/' ∉ rstripSlashL (stripL s.toList)
      rw [h]
      simp
    · split
      · next h1 h2 h3 =>
        exact absurd h3 (basenameL_rstripSlashL_ne_nil _ h2)
      · exact not_slash_mem_basenameL _

/-- An environment whose resolver follows resolve_presentation_path with cwd
/home/user and root ./presentations over an empty directory set, and where
no file exists on disk. -/
def leakEnv : Env :=
  { resolve := fun n =>
      .ok (resolve_presentation_path "/home/user" "./presentations" [] n).path
    pathExists := fun _ => false
    openPres := fun _ => .error "missing"
    newPres := .ok ⟨[]⟩
    save := fun _ p => .ok p }

/-- C6 counterexample: open_presentation's file-not-found error interpolates
the full resolved filesystem path (home directory and all) rather than at
most the basename of the caller-supplied identifier. -/
theorem open_presentation_path_leak_counterexample :
    open_presentation "deck.pptx" leakEnv =
      .ok (errResp "File not found: /home/user/presentations/deck.pptx") ∧
    sanitize_presentation_name (some "deck.pptx") = some "deck.pptx" ∧
    "File not found: /home/user/presentations/deck.pptx" ≠
      "File not found: deck.pptx" := by
  refine ⟨rfl, by decide, by decide⟩

/-- C6 amended: among the cited operations only update_chart_data sanitizes
its file-not-found error, which then carries exactly the final path
component of the caller-supplied identifier (never a separator, hence never
the resolved directory structure); open_presentation and others interpolate
the full resolved path into the same error (see the counterexample). -/
theorem chart_file_not_found_sanitized (env : Env) (nm path : String)
    (slide_index shape_index : Int) (categories : List String)
    (series_data : List Dict) (hnm : nm ≠ "")
    (hres : env.resolve nm = .ok path) (hex : env.pathExists path = false) :
    update_chart_data slide_index shape_index categories series_data (some nm)
      env = (errResp ("File not found: " ++ sanitizeStr nm), []) ∧
    '/' ∉ (sanitizeStr nm).toList := by
  refine ⟨?_, sanitizeStr_noSlash nm⟩
  simp [update_chart_data, hnm, hres, hex, sanitize_presentation_name,
    pyShowOptStr]

/-- C6 witness: a directory-qualified identifier for a missing file yields
an error that names only the basename. -/
theorem chart_file_not_found_sanitized_witness :
    update_chart_data 0 0 [] [] (some "subdir/deck.pptx") leakEnv =
      (errResp "File not found: deck.pptx", []) := by
  have h := (chart_file_not_found_sanitized leakEnv "subdir/deck.pptx"
    (resolve_presentation_path "/home/user" "./presentations" []
      "subdir/deck.pptx").path 0 0 [] [] (by decide) rfl rfl).1
  exact h

/-- C9: on an existing presentation with a valid slide index, a valid
connector type, and a non-empty color list, add_connector returns the
NameError error response (the name is_valid_rgb is not defined in the
connector module) and the presentation file is never saved. -/
theorem add_connector_name_error (env : Env) (nm path : String) (pres : Pres)
    (slide : Slide) (slide_index : Int) (connector_type : String)
    (sx sy ex ey lw : ℚ) (color : List Int)
    (hnm : nm ≠ "") (hres : env.resolve nm = .ok path)
    (hex : env.pathExists path = true) (hop : env.openPres path = .ok pres)
    (hsl : 0 ≤ slide_index ∧ slide_index < (pres.slides.length : Int))
    (hslide : pres.slides[slide_index.toNat]? = some slide)
    (hct : pyLower connector_type = "straight" ∨
      pyLower connector_type = "elbow" ∨ pyLower connector_type = "curved")
    (hcolor : color ≠ []) :
    add_connector slide_index connector_type sx sy ex ey lw (some color)
      (some nm) env =
      (connectorErr "name 'is_valid_rgb' is not defined", []) := by
  rcases color with _ | ⟨c0, crest⟩
  · exact absurd rfl hcolor
  · simp [add_connector, hnm, hres, hex, hop, hsl, hslide, hct]

/-- C9 witness: a straight connector with a red color list on the sample
document. -/
theorem add_connector_name_error_witness :
    add_connector 0 "straight" 1 1 2 2 1 (some [255, 0, 0])
      (some "deck.pptx") sampleEnv =
      (connectorErr "name 'is_valid_rgb' is not defined", []) := by
  exact add_connector_name_error sampleEnv "deck.pptx" "/root/pres/deck.pptx"
    samplePres samplePres.slides[0] 0 "straight" 1 1 2 2 1 [255, 0, 0]
    (by decide) rfl rfl rfl (by decide) rfl (Or.inl (by decide)) (by decide)

/-- C10: manage_slide_transitions with operation set or remove on an
existing presentation and a valid slide index returns a message response
and re-saves exactly the document it opened: every slide, shape, and
transition is left unchanged because no mutation happens between the open
and the save. -/
theorem transitions_set_remove_no_mutation (env : Env) (nm path saved : String)
    (pres : Pres) (slide_index : Int) (operation : String)
    (transition_type : Option String) (duration : ℚ)
    (hnm : nm ≠ "") (hres : env.resolve nm = .ok path)
    (hex : env.pathExists path = true) (hop : env.openPres path = .ok pres)
    (hsl : 0 ≤ slide_index ∧ slide_index < (pres.slides.length : Int))
    (hopn : operation = "set" ∨ operation = "remove")
    (hsave : env.save pres path = .ok saved) :
    hasKey (manage_slide_transitions slide_index operation transition_type
      duration (some nm) env).1 "message" = true ∧
    (manage_slide_transitions slide_index operation transition_type duration
      (some nm) env).2 = [(pres, path)] := by
  rcases hopn with h | h <;> subst h <;>
    constructor <;>
    simp [manage_slide_transitions, hnm, hres, hex, hop, hsl, hsave, hasKey]

/-- C10 witness: a set operation on the sample document re-saves the opened
document unchanged and reports a message. -/
theorem transitions_set_remove_no_mutation_witness :
    hasKey (manage_slide_transitions 0 "set" (some "fade") 1
      (some "deck.pptx") sampleEnv).1 "message" = true ∧
    (manage_slide_transitions 0 "set" (some "fade") 1
      (some "deck.pptx") sampleEnv).2 =
      [(samplePres, "/root/pres/deck.pptx")] := by
  exact transitions_set_remove_no_mutation sampleEnv "deck.pptx"
    "/root/pres/deck.pptx" "/root/pres/deck.pptx" samplePres 0 "set"
    (some "fade") 1 (by decide) rfl rfl rfl (by decide) (Or.inl rfl) rfl

end PptMcp
